import Mathlib

/-!
Verification of the pull orchestration layer (`src/import/pull.c`):
option parsing into a pull policy, local-name resolution with collision
detection, verb dispatch, and the event-loop exit-status contract.

Shallow embedding conventions:
* C errno-style results become `Except Int` / `Int` values; an error is the
  negative errno, exactly as the C functions return it.
* The getopt pass is embedded as a list of already-recognized options
  (`Arg`), processed in command-line order as the C `while`/`switch` does.
* External collaborators (image store lookup, puller service, event loop)
  become explicit oracle inputs (`Env`), since the spec scopes them out.
* Helpers that live in this repository but outside the provided slice
  (`parse-util`, `import-util`, `hostname-util`, `string-util`, `web-util`,
  `verbs`, `main-func`) are modelled from the spec; each such definition
  says so in its doc comment.
-/

set_option autoImplicit false

namespace Pull

/-- Decidable equality for `Except`, so that concrete runs of the embedded
functions can be checked by `decide`. -/
instance exceptDecidableEq {ε α : Type} [DecidableEq ε] [DecidableEq α] :
    DecidableEq (Except ε α) := fun a b =>
  match a, b with
  | Except.error e, Except.error f =>
      if h : e = f then Decidable.isTrue (by rw [h])
      else Decidable.isFalse (by intro hh; cases hh; exact h rfl)
  | Except.error _, Except.ok _ => Decidable.isFalse (by intro hh; cases hh)
  | Except.ok _, Except.error _ => Decidable.isFalse (by intro hh; cases hh)
  | Except.ok x, Except.ok y =>
      if h : x = y then Decidable.isTrue (by rw [h])
      else Decidable.isFalse (by intro hh; cases hh; exact h rfl)

/-- errno value `EINVAL` (invalid argument). -/
def EINVAL : Int := 22

/-- errno value `EEXIST` (file exists). -/
def EEXIST : Int := 17

/-- errno value `ENOENT` (no such entry). -/
def ENOENT : Int := 2

/-- errno value `EINTR` (interrupted). -/
def EINTR : Int := 4

/-- The `PullFlags` bitmask of `pull.c`, one Bool per bit:
`PULL_FORCE`, `PULL_SETTINGS`, `PULL_ROOTHASH`, `PULL_ROOTHASH_SIGNATURE`,
`PULL_VERITY`. -/
structure PullFlags where
  force : Bool
  settings : Bool
  roothash : Bool
  roothash_signature : Bool
  verity : Bool
deriving DecidableEq, Repr

/-- The `ImportVerify` enumeration (`import-util.h`): how downloaded content
is authenticated. -/
inductive ImportVerify where
  | IMPORT_VERIFY_NO
  | IMPORT_VERIFY_CHECKSUM
  | IMPORT_VERIFY_SIGNATURE
deriving DecidableEq, Repr

/-- The mutable option state of `pull.c` (`arg_image_root`, `arg_verify`,
`arg_pull_flags`), gathered into one record that the parse loop threads. -/
structure PullConfig where
  image_root : String
  verify : ImportVerify
  pull_flags : PullFlags
deriving DecidableEq, Repr

/-- Initial value of `arg_pull_flags`:
`PULL_SETTINGS | PULL_ROOTHASH | PULL_ROOTHASH_SIGNATURE | PULL_VERITY`. -/
def arg_pull_flags_init : PullFlags :=
  { force := false, settings := true, roothash := true,
    roothash_signature := true, verity := true }

/-- Initial value of `arg_verify`: `IMPORT_VERIFY_SIGNATURE`. -/
def arg_verify_init : ImportVerify := ImportVerify.IMPORT_VERIFY_SIGNATURE

/-- Initial value of `arg_image_root`. -/
def arg_image_root_init : String := "/var/lib/machines"

/-- The option state at program start, before any option is processed. -/
def default_config : PullConfig :=
  { image_root := arg_image_root_init, verify := arg_verify_init,
    pull_flags := arg_pull_flags_init }

/-- One recognized command-line option, as produced by the getopt pass over
the `options` table of `parse_argv`; `unknown` is getopt's `?` for an
unrecognized option. -/
inductive Arg where
  | help
  | version
  | force
  | image_root (path : String)
  | verify (value : String)
  | settings (value : String)
  | roothash (value : String)
  | roothash_signature (value : String)
  | verity (value : String)
  | unknown
deriving DecidableEq, Repr

/-- Modelled from the spec: `parse_boolean` of `parse-util.c` is not in the
provided slice. Per the option syntax (`--settings=BOOL` etc.) it accepts
the usual boolean literals and rejects anything else with `InvalidInput`
(the C function returns `-EINVAL`). -/
def parse_boolean (s : String) : Except Int Bool :=
  if s = "1" ∨ s = "yes" ∨ s = "y" ∨ s = "true" ∨ s = "t" ∨ s = "on" then
    Except.ok true
  else if s = "0" ∨ s = "no" ∨ s = "n" ∨ s = "false" ∨ s = "f" ∨ s = "off" then
    Except.ok false
  else
    Except.error (-EINVAL)

/-- Modelled from the spec: `import_verify_from_string` of `import-util.c`
is not in the provided slice. The spec fixes the valid literals as exactly
"no", "checksum" and "signature". -/
def import_verify_from_string (s : String) : Option ImportVerify :=
  if s = "no" then some ImportVerify.IMPORT_VERIFY_NO
  else if s = "checksum" then some ImportVerify.IMPORT_VERIFY_CHECKSUM
  else if s = "signature" then some ImportVerify.IMPORT_VERIFY_SIGNATURE
  else none

/-- Result of the option-parsing phase: `exit0` is the early `return 0` of
`-h`/`--help`/`--version` (run() then stops without pulling), `proceed`
carries the accumulated option state into the verb dispatch. -/
inductive ParseOutcome where
  | exit0
  | proceed (cfg : PullConfig)
deriving DecidableEq, Repr

/-- One iteration of the `switch` in `parse_argv`, updating the option
state or ending the parse. Mirrors the C cases one by one, including the
implicit clearing of `PULL_ROOTHASH_SIGNATURE` when `--roothash` is turned
off. -/
def parse_step (cfg : PullConfig) (a : Arg) : Except Int ParseOutcome :=
  match a with
  | Arg.help => Except.ok ParseOutcome.exit0
  | Arg.version => Except.ok ParseOutcome.exit0
  | Arg.force =>
      Except.ok (ParseOutcome.proceed
        { cfg with pull_flags := { cfg.pull_flags with force := true } })
  | Arg.image_root p =>
      Except.ok (ParseOutcome.proceed { cfg with image_root := p })
  | Arg.verify v =>
      match import_verify_from_string v with
      | none => Except.error (-EINVAL)
      | some m => Except.ok (ParseOutcome.proceed { cfg with verify := m })
  | Arg.settings v =>
      match parse_boolean v with
      | Except.error e => Except.error e
      | Except.ok b =>
          Except.ok (ParseOutcome.proceed
            { cfg with pull_flags := { cfg.pull_flags with settings := b } })
  | Arg.roothash v =>
      match parse_boolean v with
      | Except.error e => Except.error e
      | Except.ok b =>
          Except.ok (ParseOutcome.proceed
            { cfg with pull_flags :=
              { cfg.pull_flags with
                roothash := b,
                roothash_signature :=
                  if b then cfg.pull_flags.roothash_signature else false } })
  | Arg.roothash_signature v =>
      match parse_boolean v with
      | Except.error e => Except.error e
      | Except.ok b =>
          Except.ok (ParseOutcome.proceed
            { cfg with pull_flags :=
              { cfg.pull_flags with roothash_signature := b } })
  | Arg.verity v =>
      match parse_boolean v with
      | Except.error e => Except.error e
      | Except.ok b =>
          Except.ok (ParseOutcome.proceed
            { cfg with pull_flags := { cfg.pull_flags with verity := b } })
  | Arg.unknown => Except.error (-EINVAL)

/-- The getopt loop of `parse_argv`: options are consumed left to right;
`-h`/`--version` end the parse immediately with the early-exit outcome, an
invalid value aborts the whole parse with its error. -/
def parse_argv (cfg : PullConfig) : List Arg → Except Int ParseOutcome
  | [] => Except.ok (ParseOutcome.proceed cfg)
  | a :: rest =>
      match parse_step cfg a with
      | Except.error e => Except.error e
      | Except.ok ParseOutcome.exit0 => Except.ok ParseOutcome.exit0
      | Except.ok (ParseOutcome.proceed cfg') => parse_argv cfg' rest

/-- Modelled from the spec: `http_url_is_valid` of `web-util.h` is not in
the provided slice. A valid URL uses the http or https scheme and has a
nonempty remainder after the scheme. -/
def http_url_is_valid (s : String) : Bool :=
  ("http://".data.isPrefixOf s.data && decide (7 < s.data.length)) ||
  ("https://".data.isPrefixOf s.data && decide (8 < s.data.length))

/-- Modelled from the spec: `import_url_last_component` of `import-util.c`
is not in the provided slice. It extracts the final path segment of the
URL (the characters after the last `/`) and fails with `InvalidInput` when
there is none. -/
def last_component_chars (url : String) : List Char :=
  (url.data.reverse.takeWhile (fun c => c ≠ '/')).reverse

/-- Modelled from the spec (continued): the final path segment as an
`Except`, failing when it is empty. -/
def import_url_last_component (url : String) : Except Int String :=
  if (last_component_chars url).isEmpty then Except.error (-EINVAL)
  else Except.ok (String.mk (last_component_chars url))

/-- Modelled from the spec: `empty_or_dash_to_null` of `string-util.h` is
not in the provided slice. Per its contract (visible in its name at the
call sites) it maps the empty string and the `-` placeholder to "no local
name". -/
def empty_or_dash_to_null (s : String) : Option String :=
  if s = "" ∨ s = "-" then none else some s

/-- Does `suf` occur at the end of `s`? (the C `endswith`). -/
def ends_with (s suf : String) : Bool :=
  suf.data.isSuffixOf s.data

/-- Remove the last `n` characters of `s`. -/
def drop_right (s : String) (n : Nat) : String :=
  String.mk (s.data.take (s.data.length - n))

/-- Strip the first matching suffix of the list from `s`, if any. -/
def strip_one (sufs : List String) (s : String) : Option String :=
  sufs.findSome? fun suf =>
    if ends_with s suf && decide (0 < suf.data.length) then
      some (drop_right s suf.data.length)
    else none

/-- Repeatedly strip recognized suffixes, fuelled by the string length
(each successful strip removes at least one character). -/
def strip_all (sufs : List String) : Nat → String → String
  | 0, s => s
  | fuel + 1, s =>
      match strip_one sufs s with
      | some s' => strip_all sufs fuel s'
      | none => s

/-- Modelled from the spec: `tar_strip_suffixes` of `import-util.c` is not
in the provided slice. It strips the tar-family archive/compression
suffixes from a candidate name. -/
def tar_strip_suffixes (s : String) : String :=
  strip_all [".tar", ".gz", ".bz2", ".xz", ".tgz"] s.data.length s

/-- Modelled from the spec: `raw_strip_suffixes` of `import-util.c` is not
in the provided slice. It strips the raw/disk-image suffixes from a
candidate name. -/
def raw_strip_suffixes (s : String) : String :=
  strip_all [".raw", ".qcow2", ".img", ".bin", ".gz", ".bz2", ".xz"] s.data.length s

/-- Modelled from the spec: `hostname_is_valid` of `hostname-util.c` is not
in the provided slice. Host-name-like syntax: nonempty, bounded length,
restricted character set, and no leading `.` or `-`. -/
def hostname_is_valid (s : String) : Bool :=
  match s.data with
  | [] => false
  | c :: _ =>
      decide (s.data.length ≤ 64) &&
      s.data.all (fun ch => ch.isAlphanum || ch = '-' || ch = '_' || ch = '.') &&
      !(c = '.') && !(c = '-')

/-- Modelled from the spec: the kind-specific flag mask for tar pulls
(`PULL_FLAGS_MASK_TAR` of `pull-tar.h` is not in the provided slice); the
tar kind recognizes only `FORCE` and `SETTINGS`. -/
def PULL_FLAGS_MASK_TAR (f : PullFlags) : PullFlags :=
  { f with roothash := false, roothash_signature := false, verity := false }

/-- Modelled from the spec: the kind-specific flag mask for raw pulls
(`PULL_FLAGS_MASK_RAW` of `pull-raw.h` is not in the provided slice); the
raw kind recognizes all five flags. -/
def PULL_FLAGS_MASK_RAW (f : PullFlags) : PullFlags := f

/-- The data handed to `tar_pull_start` / `raw_pull_start`: a puller task
is created exactly when the preparatory phase of `pull_tar`/`pull_raw`
reaches this point. -/
structure PullStart where
  url : String
  local_name : Option String
  flags : PullFlags
  verify : ImportVerify
deriving DecidableEq, Repr

/-- The name argument as `pull_tar`/`pull_raw` picks it: `argv[2]` when
given, otherwise the final URL component (`import_url_last_component`). -/
def choose_local (url : String) (arg_local : Option String) : Except Int String :=
  match arg_local with
  | some l => Except.ok l
  | none => import_url_last_component url

/-- The preparatory phase shared verbatim by `pull_tar` and `pull_raw`
(they differ only in the suffix stripper and the kind mask): URL
validation, name resolution and normalization, host-name validation, and
the collision check against the image store when `PULL_FORCE` is unset.
`store name` is the oracle for `image_find(IMAGE_MACHINE, name, ...)`:
nonnegative means the image exists, `-ENOENT` means not found, any other
negative value is a store failure. -/
def pull_prepare (strip : String → String) (mask : PullFlags → PullFlags)
    (store : String → Int) (cfg : PullConfig)
    (url : String) (arg_local : Option String) : Except Int PullStart :=
  if http_url_is_valid url = false then Except.error (-EINVAL) else
  match choose_local url arg_local with
  | Except.error e => Except.error e
  | Except.ok loc =>
      match empty_or_dash_to_null loc with
      | none =>
          Except.ok { url := url, local_name := none,
                      flags := mask cfg.pull_flags, verify := cfg.verify }
      | some loc1 =>
          let ll := strip loc1
          if hostname_is_valid ll = false then Except.error (-EINVAL) else
          if cfg.pull_flags.force = false then
            if store ll < 0 then
              if store ll = -ENOENT then
                Except.ok { url := url, local_name := some ll,
                            flags := mask cfg.pull_flags, verify := cfg.verify }
              else Except.error (store ll)
            else Except.error (-EEXIST)
          else
            Except.ok { url := url, local_name := some ll,
                        flags := mask cfg.pull_flags, verify := cfg.verify }

/-- Which event the loop observes first: the puller's completion callback
with its signed error code, or a watched signal (SIGTERM/SIGINT). -/
inductive LoopOutcome where
  | finished (error : Int)
  | interrupted
deriving DecidableEq, Repr

/-- The value `on_tar_finished` passes to `sd_event_exit`: `abs(error)`. -/
def on_tar_finished (error : Int) : Int := Int.natAbs error

/-- The value `on_raw_finished` passes to `sd_event_exit`: `abs(error)`. -/
def on_raw_finished (error : Int) : Int := Int.natAbs error

/-- The value `interrupt_signal_handler` passes to `sd_event_exit`:
`EINTR`. -/
def interrupt_signal_handler : Int := EINTR

/-- The exit value of `sd_event_loop` for a tar pull: whichever of the two
handlers fires requests the loop to stop with its code. -/
def sd_event_loop_tar : LoopOutcome → Int
  | LoopOutcome.finished e => on_tar_finished e
  | LoopOutcome.interrupted => interrupt_signal_handler

/-- The exit value of `sd_event_loop` for a raw pull. -/
def sd_event_loop_raw : LoopOutcome → Int
  | LoopOutcome.finished e => on_raw_finished e
  | LoopOutcome.interrupted => interrupt_signal_handler

/-- The external collaborators of one invocation: the image-store lookup
oracle, the synchronous results of event-loop allocation, puller
allocation (`*_pull_new`) and task start (`*_pull_start`) — nonnegative
means success, negative the errno they fail with — and the event the loop
observes first. -/
structure Env where
  store : String → Int
  sd_event_default_r : Int
  pull_new_r : Int
  pull_start_r : Int
  outcome : LoopOutcome

/-- The whole of `pull_tar` as its C return value: the preparatory phase,
the synchronous failure paths of loop/puller/task setup, and otherwise the
negated event-loop exit value (`return -r`). -/
def pull_tar (env : Env) (cfg : PullConfig)
    (url : String) (arg_local : Option String) : Int :=
  match pull_prepare tar_strip_suffixes PULL_FLAGS_MASK_TAR env.store cfg url arg_local with
  | Except.error e => e
  | Except.ok _ =>
      if env.sd_event_default_r < 0 then env.sd_event_default_r
      else if env.pull_new_r < 0 then env.pull_new_r
      else if env.pull_start_r < 0 then env.pull_start_r
      else -(sd_event_loop_tar env.outcome)

/-- The whole of `pull_raw` as its C return value. -/
def pull_raw (env : Env) (cfg : PullConfig)
    (url : String) (arg_local : Option String) : Int :=
  match pull_prepare raw_strip_suffixes PULL_FLAGS_MASK_RAW env.store cfg url arg_local with
  | Except.error e => e
  | Except.ok _ =>
      if env.sd_event_default_r < 0 then env.sd_event_default_r
      else if env.pull_new_r < 0 then env.pull_new_r
      else if env.pull_start_r < 0 then env.pull_start_r
      else -(sd_event_loop_raw env.outcome)

/-- `pull_main` with the verb table of `pull.c`
(`help`: any argument count; `tar`/`raw`: between 2 and 3 arguments
including the verb). The dispatch semantics (match the verb by name, check
the argument count, otherwise fail with `-EINVAL`) is modelled from the
spec, since `dispatch_verb` of `verbs.c` is not in the provided slice. -/
def pull_main (env : Env) (cfg : PullConfig) (args : List String) : Int :=
  match args with
  | [] => -EINVAL
  | verb :: rest =>
      if verb = "help" then 0
      else if verb = "tar" then
        match rest with
        | [url] => pull_tar env cfg url none
        | [url, name] => pull_tar env cfg url (some name)
        | _ => -EINVAL
      else if verb = "raw" then
        match rest with
        | [url] => pull_raw env cfg url none
        | [url, name] => pull_raw env cfg url (some name)
        | _ => -EINVAL
      else -EINVAL

/-- Modelled from the spec: the exit-status conversion of
`DEFINE_MAIN_FUNCTION` (`main-func.h`, not in the provided slice) per the
spec's exit contract — 0 on success and the reported error magnitude
otherwise. -/
def process_exit_status (r : Int) : Int := if r < 0 then -r else r

/-- `run`: parse the options; a negative parse result or the early exit of
`-h`/`--version` ends the process there, otherwise the positional
arguments are dispatched. -/
def run (env : Env) (opts : List Arg) (args : List String) : Int :=
  match parse_argv default_config opts with
  | Except.error e => e
  | Except.ok ParseOutcome.exit0 => 0
  | Except.ok (ParseOutcome.proceed cfg) => pull_main env cfg args

/-! ### Helper lemmas -/

/-- A failing `parse_boolean` always fails with `-EINVAL`. -/
theorem parse_boolean_error_eq (s : String) (e : Int)
    (h : parse_boolean s = Except.error e) : e = -EINVAL := by
  unfold parse_boolean at h
  split at h
  · cases h
  · split at h
    · cases h
    · cases h; rfl

/-- A verify-mode literal outside the three valid ones is rejected. -/
theorem import_verify_from_string_none (s : String)
    (h1 : s ≠ "no") (h2 : s ≠ "checksum") (h3 : s ≠ "signature") :
    import_verify_from_string s = none := by
  simp [import_verify_from_string, h1, h2, h3]

/-- The final URL component, when extractable, is never empty. -/
theorem import_url_last_component_ne_empty (url seg : String)
    (h : import_url_last_component url = Except.ok seg) : seg ≠ "" := by
  unfold import_url_last_component at h
  split at h
  · cases h
  · rename_i hne
    cases h
    intro hcon
    apply hne
    have := congrArg String.data hcon
    simpa [List.isEmpty_iff] using this

/-- Splitting the option list: the getopt loop over `l1 ++ l2` runs `l1`
first and continues into `l2` only when `l1` neither failed nor
early-exited. -/
theorem parse_argv_append (l1 l2 : List Arg) :
    ∀ cfg : PullConfig,
      parse_argv cfg (l1 ++ l2) =
        match parse_argv cfg l1 with
        | Except.error e => Except.error e
        | Except.ok ParseOutcome.exit0 => Except.ok ParseOutcome.exit0
        | Except.ok (ParseOutcome.proceed c) => parse_argv c l2 := by
  induction l1 with
  | nil => intro cfg; rfl
  | cons a rest ih =>
      intro cfg
      simp only [List.cons_append, parse_argv]
      cases parse_step cfg a with
      | error e => rfl
      | ok o =>
          cases o with
          | exit0 => rfl
          | proceed c => exact ih c

/-- Invariant preservation along the getopt loop: a property of the option
state preserved by every processed step holds at the end of a successful
parse. -/
theorem parse_argv_inv (P : PullConfig → Prop) :
    ∀ (l : List Arg) (cfg res : PullConfig),
      (∀ (cfg' : PullConfig) (a : Arg) (c : PullConfig), a ∈ l → P cfg' →
          parse_step cfg' a = Except.ok (ParseOutcome.proceed c) → P c) →
      P cfg →
      parse_argv cfg l = Except.ok (ParseOutcome.proceed res) → P res := by
  intro l
  induction l with
  | nil =>
      intro cfg res _ hp h
      simp only [parse_argv, Except.ok.injEq, ParseOutcome.proceed.injEq] at h
      exact h ▸ hp
  | cons a rest ih =>
      intro cfg res hstep hp h
      simp only [parse_argv] at h
      cases hs : parse_step cfg a with
      | error e => rw [hs] at h; cases h
      | ok o =>
          cases o with
          | exit0 => rw [hs] at h; cases h
          | proceed c =>
              rw [hs] at h
              exact ih c res
                (fun cfg' a' c' hmem => hstep cfg' a' c' (List.mem_cons_of_mem a hmem))
                (hstep cfg a c (List.mem_cons_self a rest) hp hs) h

/-- No option-processing step ever clears `PULL_FORCE`. -/
theorem parse_step_keeps_force (cfg : PullConfig) (a : Arg) (c : PullConfig)
    (hf : cfg.pull_flags.force = true)
    (h : parse_step cfg a = Except.ok (ParseOutcome.proceed c)) :
    c.pull_flags.force = true := by
  cases a <;> simp only [parse_step] at h
  case help => cases h
  case version => cases h
  case force => cases h; rfl
  case image_root p => cases h; exact hf
  case verify v =>
      cases hv : import_verify_from_string v <;> rw [hv] at h
      · cases h
      · cases h; exact hf
  case settings v =>
      cases hb : parse_boolean v <;> rw [hb] at h
      · cases h
      · cases h; exact hf
  case roothash v =>
      cases hb : parse_boolean v <;> rw [hb] at h
      · cases h
      · cases h; exact hf
  case roothash_signature v =>
      cases hb : parse_boolean v <;> rw [hb] at h
      · cases h
      · cases h; exact hf
  case verity v =>
      cases hb : parse_boolean v <;> rw [hb] at h
      · cases h
      · cases h; exact hf
  case unknown => cases h

/-- Once `PULL_ROOTHASH_SIGNATURE` is off, a step that is not a
`--roothash-signature` option with a valid true value keeps it off. -/
theorem parse_step_keeps_sig_off (cfg : PullConfig) (a : Arg) (c : PullConfig)
    (hsig : cfg.pull_flags.roothash_signature = false)
    (ha : ∀ s : String, a = Arg.roothash_signature s → parse_boolean s ≠ Except.ok true)
    (h : parse_step cfg a = Except.ok (ParseOutcome.proceed c)) :
    c.pull_flags.roothash_signature = false := by
  cases a <;> simp only [parse_step] at h
  case help => cases h
  case version => cases h
  case force => cases h; exact hsig
  case image_root p => cases h; exact hsig
  case verify v =>
      cases hv : import_verify_from_string v <;> rw [hv] at h
      · cases h
      · cases h; exact hsig
  case settings v =>
      cases hb : parse_boolean v <;> rw [hb] at h
      · cases h
      · cases h; exact hsig
  case roothash v =>
      cases hb : parse_boolean v <;> rw [hb] at h
      · cases h
      · rename_i b
        cases h
        cases b
        · rfl
        · simpa using hsig
  case roothash_signature v =>
      cases hb : parse_boolean v <;> rw [hb] at h
      · cases h
      · rename_i b
        cases h
        cases b
        · rfl
        · exact absurd hb (ha v rfl)
  case verity v =>
      cases hb : parse_boolean v <;> rw [hb] at h
      · cases h
      · cases h; exact hsig
  case unknown => cases h

/-- `process_exit_status` inverts the `return -r` of the pull entry points
for a nonnegative loop exit value. -/
theorem process_exit_status_neg (x : Int) (hx : 0 ≤ x) :
    process_exit_status (-x) = x := by
  unfold process_exit_status
  split <;> omega

/-- The event-loop exit value of a tar pull is never negative. -/
theorem sd_event_loop_tar_nonneg (o : LoopOutcome) : 0 ≤ sd_event_loop_tar o := by
  cases o with
  | finished e => exact Int.natCast_nonneg _
  | interrupted => decide

/-! ### Claim theorems -/

/-- C7: with zero option overrides the resolved policy equals the
documented defaults: `SETTINGS`, `ROOTHASH`, `ROOTHASH_SIGNATURE` and
`VERITY` set, `FORCE` unset, verify mode `SIGNATURE`; and parsing an empty
option list proceeds with exactly that state. -/
theorem default_policy :
    arg_pull_flags_init.settings = true ∧
    arg_pull_flags_init.roothash = true ∧
    arg_pull_flags_init.roothash_signature = true ∧
    arg_pull_flags_init.verity = true ∧
    arg_pull_flags_init.force = false ∧
    arg_verify_init = ImportVerify.IMPORT_VERIFY_SIGNATURE ∧
    parse_argv default_config [] = Except.ok (ParseOutcome.proceed default_config) := by
  decide

/-- C1 counterexample: the option sequence
`--roothash=false --roothash-signature=true`, in that order, ends with
`ROOTHASH` disabled but `ROOTHASH_SIGNATURE` enabled — the later explicit
option overrides the implicit disable, contradicting the claim that this
ordering yields both bits disabled. -/
theorem roothash_order_cex :
    parse_argv default_config [Arg.roothash "false", Arg.roothash_signature "true"] =
      Except.ok (ParseOutcome.proceed
        { image_root := "/var/lib/machines",
          verify := ImportVerify.IMPORT_VERIFY_SIGNATURE,
          pull_flags := { force := false, settings := true, roothash := false,
                          roothash_signature := true, verity := true } }) := by
  decide

/-- C1 amended: turning `--roothash` off also clears
`ROOTHASH_SIGNATURE` at that point, and the bit stays cleared unless a
later `--roothash-signature` option with a true value re-enables it; in
particular `--roothash-signature=true --roothash=false` (signature option
first) ends with both bits disabled. -/
theorem roothash_disable_amended :
    (∀ (l1 l2 : List Arg) (cfg res : PullConfig),
        (∀ s : String, Arg.roothash_signature s ∈ l2 →
            parse_boolean s ≠ Except.ok true) →
        parse_argv cfg (l1 ++ Arg.roothash "false" :: l2) =
          Except.ok (ParseOutcome.proceed res) →
        res.pull_flags.roothash_signature = false) ∧
    parse_argv default_config [Arg.roothash_signature "true", Arg.roothash "false"] =
      Except.ok (ParseOutcome.proceed
        { image_root := "/var/lib/machines",
          verify := ImportVerify.IMPORT_VERIFY_SIGNATURE,
          pull_flags := { force := false, settings := true, roothash := false,
                          roothash_signature := false, verity := true } }) := by
  constructor
  · intro l1 l2 cfg res hl2 h
    rw [parse_argv_append] at h
    cases h1 : parse_argv cfg l1 with
    | error e => rw [h1] at h; cases h
    | ok o =>
        cases o with
        | exit0 => rw [h1] at h; cases h
        | proceed c =>
            rw [h1] at h
            have hb : parse_boolean "false" = Except.ok false := by decide
            simp only [parse_argv, parse_step, hb] at h
            refine parse_argv_inv
              (fun cfg' => cfg'.pull_flags.roothash_signature = false) l2 _ res
              ?_ rfl h
            intro cfg' a c hmem hsig hstep
            refine parse_step_keeps_sig_off cfg' a c hsig ?_ hstep
            intro s hs
            exact hl2 s (hs ▸ hmem)
  · decide

/-- C1 amended witness: the amended statement applied to the concrete
command line `--roothash=false` (nothing after it). -/
theorem roothash_disable_amended_witness :
    ({ image_root := "/var/lib/machines",
       verify := ImportVerify.IMPORT_VERIFY_SIGNATURE,
       pull_flags := { force := false, settings := true, roothash := false,
                       roothash_signature := false, verity := true } } :
      PullConfig).pull_flags.roothash_signature = false :=
  roothash_disable_amended.1 [] [] default_config _
    (fun s hs => absurd hs (List.not_mem_nil (Arg.roothash_signature s))) (by decide)

/-- C10: option parsing is monotone in `PULL_FORCE` — whenever `--force`
occurs in the option list and the parse proceeds to a resolved
configuration, that configuration has `FORCE` set; no recognized option
clears it. -/
theorem force_monotone :
    ∀ (l : List Arg) (cfg res : PullConfig),
      Arg.force ∈ l →
      parse_argv cfg l = Except.ok (ParseOutcome.proceed res) →
      res.pull_flags.force = true := by
  intro l
  induction l with
  | nil => intro cfg res hmem; cases hmem
  | cons a rest ih =>
      intro cfg res hmem h
      simp only [parse_argv] at h
      cases hs : parse_step cfg a with
      | error e => rw [hs] at h; cases h
      | ok o =>
          cases o with
          | exit0 => rw [hs] at h; cases h
          | proceed c =>
              rw [hs] at h
              rcases List.mem_cons.mp hmem with hhead | htail
              · subst hhead
                simp only [parse_step, Except.ok.injEq, ParseOutcome.proceed.injEq] at hs
                have hc : c.pull_flags.force = true := by
                  rw [← hs]
                refine parse_argv_inv (fun cfg' => cfg'.pull_flags.force = true)
                  rest c res ?_ hc h
                intro cfg' a' c' _ hf hstep
                exact parse_step_keeps_force cfg' a' c' hf hstep
              · exact ih c res htail h

/-- C6: the three valid `--verify=` literals yield the corresponding
modes, any other literal fails the parse with `-EINVAL`, and an invalid
boolean literal for `--settings`, `--roothash`, `--roothash-signature` or
`--verity` likewise fails the parse with `-EINVAL`. -/
theorem verify_literal_contract :
    parse_argv default_config [Arg.verify "no"] =
      Except.ok (ParseOutcome.proceed
        { default_config with verify := ImportVerify.IMPORT_VERIFY_NO }) ∧
    parse_argv default_config [Arg.verify "checksum"] =
      Except.ok (ParseOutcome.proceed
        { default_config with verify := ImportVerify.IMPORT_VERIFY_CHECKSUM }) ∧
    parse_argv default_config [Arg.verify "signature"] =
      Except.ok (ParseOutcome.proceed
        { default_config with verify := ImportVerify.IMPORT_VERIFY_SIGNATURE }) ∧
    (∀ (s : String) (cfg : PullConfig),
        s ≠ "no" → s ≠ "checksum" → s ≠ "signature" →
        parse_argv cfg [Arg.verify s] = Except.error (-EINVAL)) ∧
    (∀ (s : String) (cfg : PullConfig) (e : Int),
        parse_boolean s = Except.error e →
        parse_argv cfg [Arg.settings s] = Except.error (-EINVAL) ∧
        parse_argv cfg [Arg.roothash s] = Except.error (-EINVAL) ∧
        parse_argv cfg [Arg.roothash_signature s] = Except.error (-EINVAL) ∧
        parse_argv cfg [Arg.verity s] = Except.error (-EINVAL)) := by
  refine ⟨by decide, by decide, by decide, ?_, ?_⟩
  · intro s cfg h1 h2 h3
    have hv := import_verify_from_string_none s h1 h2 h3
    simp [parse_argv, parse_step, hv]
  · intro s cfg e he
    have he' : parse_boolean s = Except.error (-EINVAL) := by
      rw [he, parse_boolean_error_eq s e he]
    refine ⟨?_, ?_, ?_, ?_⟩ <;> simp [parse_argv, parse_step, he']

/-- C6 witness: the invalid literal "bogus" rejected as a verify mode and
as a boolean for `--settings`. -/
theorem verify_literal_contract_witness :
    parse_argv default_config [Arg.verify "bogus"] = Except.error (-EINVAL) ∧
    parse_argv default_config [Arg.settings "bogus"] = Except.error (-EINVAL) :=
  ⟨verify_literal_contract.2.2.2.1 "bogus" default_config
      (by decide) (by decide) (by decide),
   (verify_literal_contract.2.2.2.2 "bogus" default_config (-EINVAL)
      (by decide)).1⟩

/-- C3: for a resolved non-null local name, with `FORCE` unset an existing
image of that name aborts resolution with `-EEXIST` (so no puller task is
ever created), a store failure other than `-ENOENT` is propagated as the
fatal result, and with `FORCE` set the preparation succeeds for every
store oracle (the lookup is not consulted). -/
theorem collision_check_contract
    (store : String → Int) (cfg : PullConfig) (url : String)
    (arg_local : Option String) (loc loc1 : String)
    (hurl : http_url_is_valid url = true)
    (hloc : choose_local url arg_local = Except.ok loc)
    (hloc1 : empty_or_dash_to_null loc = some loc1)
    (hname : hostname_is_valid (tar_strip_suffixes loc1) = true) :
    (cfg.pull_flags.force = false → 0 ≤ store (tar_strip_suffixes loc1) →
        pull_prepare tar_strip_suffixes PULL_FLAGS_MASK_TAR store cfg url arg_local =
          Except.error (-EEXIST)) ∧
    (cfg.pull_flags.force = false → store (tar_strip_suffixes loc1) < 0 →
        store (tar_strip_suffixes loc1) ≠ -ENOENT →
        pull_prepare tar_strip_suffixes PULL_FLAGS_MASK_TAR store cfg url arg_local =
          Except.error (store (tar_strip_suffixes loc1))) ∧
    (cfg.pull_flags.force = true →
        pull_prepare tar_strip_suffixes PULL_FLAGS_MASK_TAR store cfg url arg_local =
          Except.ok { url := url, local_name := some (tar_strip_suffixes loc1),
                      flags := PULL_FLAGS_MASK_TAR cfg.pull_flags,
                      verify := cfg.verify }) := by
  refine ⟨?_, ?_, ?_⟩
  · intro hf hst
    have hnotlt : ¬ store (tar_strip_suffixes loc1) < 0 := not_lt.mpr hst
    simp [pull_prepare, hurl, hloc, hloc1, hname, hf, hnotlt]
  · intro hf hst hne
    simp [pull_prepare, hurl, hloc, hloc1, hname, hf, hst, hne]
  · intro hf
    simp [pull_prepare, hurl, hloc, hloc1, hname, hf]

/-- C3 witness: name "foo" supplied, store reports it exists, `FORCE`
unset: preparation fails with `-EEXIST`. -/
theorem collision_check_contract_witness :
    pull_prepare tar_strip_suffixes PULL_FLAGS_MASK_TAR (fun _ => 0)
      default_config "https://example.com/x" (some "foo") =
      Except.error (-EEXIST) :=
  (collision_check_contract (fun _ => 0) default_config "https://example.com/x"
      (some "foo") "foo" "foo" (by decide) (by decide) (by decide) (by decide)).1
    (by decide) (by decide)

/-- C4: with no caller-supplied name the resolved local name is the URL's
final path segment with the tar suffixes stripped; the concrete scenario
`tar https://example.com/images/foo.tar.xz` resolves to "foo"; and a URL
without an extractable final segment fails with `-EINVAL`. -/
theorem url_name_derivation :
    (∀ (store : String → Int) (cfg : PullConfig) (url seg : String)
        (st : PullStart),
        http_url_is_valid url = true →
        import_url_last_component url = Except.ok seg →
        seg ≠ "-" →
        pull_prepare tar_strip_suffixes PULL_FLAGS_MASK_TAR store cfg url none =
          Except.ok st →
        st.local_name = some (tar_strip_suffixes seg)) ∧
    pull_prepare tar_strip_suffixes PULL_FLAGS_MASK_TAR (fun _ => -ENOENT)
      default_config "https://example.com/images/foo.tar.xz" none =
      Except.ok { url := "https://example.com/images/foo.tar.xz",
                  local_name := some "foo",
                  flags := PULL_FLAGS_MASK_TAR arg_pull_flags_init,
                  verify := ImportVerify.IMPORT_VERIFY_SIGNATURE } ∧
    (∀ (store : String → Int) (cfg : PullConfig),
        pull_prepare tar_strip_suffixes PULL_FLAGS_MASK_TAR store cfg
          "https://example.com/images/" none = Except.error (-EINVAL)) := by
  refine ⟨?_, by decide, ?_⟩
  · intro store cfg url seg st hurl hlast hdash hsucc
    have hne := import_url_last_component_ne_empty url seg hlast
    have hloc1 : empty_or_dash_to_null seg = some seg := by
      simp [empty_or_dash_to_null, hne, hdash]
    simp only [pull_prepare, hurl, choose_local, hlast, hloc1] at hsucc
    simp at hsucc
    split at hsucc
    · cases hsucc
    · split at hsucc
      · split at hsucc
        · split at hsucc
          · cases hsucc; rfl
          · cases hsucc
        · cases hsucc
      · cases hsucc; rfl
  · intro store cfg
    have h1 : http_url_is_valid "https://example.com/images/" = true := by decide
    have h2 : import_url_last_component "https://example.com/images/" =
        Except.error (-EINVAL) := by decide
    simp [pull_prepare, choose_local, h1, h2]

/-- C4 witness: the general derivation applied at the concrete scenario
URL, with the store reporting not-found. -/
theorem url_name_derivation_witness :
    ({ url := "https://example.com/images/foo.tar.xz",
       local_name := some "foo",
       flags := PULL_FLAGS_MASK_TAR arg_pull_flags_init,
       verify := ImportVerify.IMPORT_VERIFY_SIGNATURE } : PullStart).local_name =
      some "foo" :=
  (url_name_derivation.1 (fun _ => -ENOENT) default_config
      "https://example.com/images/foo.tar.xz" "foo.tar.xz" _
      (by decide) (by decide) (by decide) (by decide)).trans (by decide)

/-- C5: a caller-supplied "-" name yields "no local name": for every store
oracle the raw preparation succeeds with no local name, never consulting
the store, skipping suffix stripping, validation and the existence
check. -/
theorem dash_name_skips_store :
    ∀ (store : String → Int) (cfg : PullConfig) (url : String),
      http_url_is_valid url = true →
      pull_prepare raw_strip_suffixes PULL_FLAGS_MASK_RAW store cfg url (some "-") =
        Except.ok { url := url, local_name := none,
                    flags := PULL_FLAGS_MASK_RAW cfg.pull_flags,
                    verify := cfg.verify } := by
  intro store cfg url hurl
  have hd : empty_or_dash_to_null "-" = none := by decide
  simp [pull_prepare, choose_local, hurl, hd]

/-- C5 witness: the "-" placeholder at the scenario URL with a store that
would report any lookup as existing. -/
theorem dash_name_skips_store_witness :
    pull_prepare raw_strip_suffixes PULL_FLAGS_MASK_RAW (fun _ => 0)
      default_config "https://example.com/img.raw" (some "-") =
      Except.ok { url := "https://example.com/img.raw", local_name := none,
                  flags := PULL_FLAGS_MASK_RAW arg_pull_flags_init,
                  verify := ImportVerify.IMPORT_VERIFY_SIGNATURE } :=
  dash_name_skips_store (fun _ => 0) default_config "https://example.com/img.raw"
    (by decide)

/-- C9: an empty caller-supplied name behaves exactly like the "-"
placeholder, for both pull kinds and every store oracle: resolution yields
no local name and the remaining steps are skipped. -/
theorem empty_name_is_no_name :
    (∀ (strip : String → String) (mask : PullFlags → PullFlags)
        (store : String → Int) (cfg : PullConfig) (url : String),
        pull_prepare strip mask store cfg url (some "") =
          pull_prepare strip mask store cfg url (some "-")) ∧
    (∀ (store : String → Int) (cfg : PullConfig) (url : String),
        http_url_is_valid url = true →
        pull_prepare tar_strip_suffixes PULL_FLAGS_MASK_TAR store cfg url (some "") =
          Except.ok { url := url, local_name := none,
                      flags := PULL_FLAGS_MASK_TAR cfg.pull_flags,
                      verify := cfg.verify }) := by
  have h0 : empty_or_dash_to_null "" = none := by decide
  have hd : empty_or_dash_to_null "-" = none := by decide
  refine ⟨?_, ?_⟩
  · intro strip mask store cfg url
    simp [pull_prepare, choose_local, h0, hd]
  · intro store cfg url hurl
    simp [pull_prepare, choose_local, hurl, h0]

/-- C9 witness: the empty name at a concrete URL equals the "-" behavior
and skips the existence check. -/
theorem empty_name_is_no_name_witness :
    pull_prepare tar_strip_suffixes PULL_FLAGS_MASK_TAR (fun _ => 0)
      default_config "https://example.com/a.tar" (some "") =
      Except.ok { url := "https://example.com/a.tar", local_name := none,
                  flags := PULL_FLAGS_MASK_TAR arg_pull_flags_init,
                  verify := ImportVerify.IMPORT_VERIFY_SIGNATURE } :=
  empty_name_is_no_name.2 (fun _ => 0) default_config "https://example.com/a.tar"
    (by decide)

/-- C2: once the preparatory phase and the synchronous setup succeed, the
process exit status is 0 when the completion callback reports 0, the
magnitude of the reported code when it is nonzero, and `EINTR` when a
watched signal stops the loop first. -/
theorem exit_status_contract
    (env : Env) (cfg : PullConfig) (url : String) (arg_local : Option String)
    (st : PullStart)
    (hprep : pull_prepare tar_strip_suffixes PULL_FLAGS_MASK_TAR env.store cfg
        url arg_local = Except.ok st)
    (h1 : 0 ≤ env.sd_event_default_r) (h2 : 0 ≤ env.pull_new_r)
    (h3 : 0 ≤ env.pull_start_r) :
    (env.outcome = LoopOutcome.finished 0 →
        process_exit_status (pull_tar env cfg url arg_local) = 0) ∧
    (∀ e : Int, env.outcome = LoopOutcome.finished e →
        process_exit_status (pull_tar env cfg url arg_local) = (Int.natAbs e : Int)) ∧
    (env.outcome = LoopOutcome.interrupted →
        process_exit_status (pull_tar env cfg url arg_local) = EINTR) := by
  have hrun : pull_tar env cfg url arg_local = -(sd_event_loop_tar env.outcome) := by
    simp only [pull_tar, hprep]
    rw [if_neg (by omega), if_neg (by omega), if_neg (by omega)]
  refine ⟨?_, ?_, ?_⟩
  · intro ho
    rw [hrun, process_exit_status_neg _ (sd_event_loop_tar_nonneg _), ho]
    rfl
  · intro e ho
    rw [hrun, process_exit_status_neg _ (sd_event_loop_tar_nonneg _), ho]
    rfl
  · intro ho
    rw [hrun, process_exit_status_neg _ (sd_event_loop_tar_nonneg _), ho]
    rfl

/-- C2 witness: a completion callback reporting -5 yields exit status 5 at
a concrete invocation. -/
theorem exit_status_contract_witness :
    process_exit_status (pull_tar
      { store := fun _ => -ENOENT, sd_event_default_r := 0, pull_new_r := 0,
        pull_start_r := 0, outcome := LoopOutcome.finished (-5) }
      default_config "https://example.com/img.tar" (some "-")) = 5 := by
  have h := exit_status_contract
    { store := fun _ => -ENOENT, sd_event_default_r := 0, pull_new_r := 0,
      pull_start_r := 0, outcome := LoopOutcome.finished (-5) }
    default_config "https://example.com/img.tar" (some "-")
    { url := "https://example.com/img.tar", local_name := none,
      flags := PULL_FLAGS_MASK_TAR arg_pull_flags_init,
      verify := ImportVerify.IMPORT_VERIFY_SIGNATURE }
    (by decide) (by decide) (by decide) (by decide)
  simpa using h.2.1 (-5) rfl

/-- C8: the verb dispatcher recognizes exactly `help` (any argument count,
always succeeds, pulls nothing), `tar` and `raw` (2 or 3 arguments
including the verb); anything else — unknown verb, missing verb, or an
out-of-range argument count — yields `-EINVAL` for every environment,
hence before any network or store activity. -/
theorem verb_dispatch_contract :
    (∀ (env : Env) (cfg : PullConfig) (rest : List String),
        pull_main env cfg ("help" :: rest) = 0) ∧
    (∀ (env : Env) (cfg : PullConfig), pull_main env cfg [] = -EINVAL) ∧
    (∀ (env : Env) (cfg : PullConfig) (verb : String) (rest : List String),
        verb ≠ "help" → verb ≠ "tar" → verb ≠ "raw" →
        pull_main env cfg (verb :: rest) = -EINVAL) ∧
    (∀ (env : Env) (cfg : PullConfig), pull_main env cfg ["tar"] = -EINVAL) ∧
    (∀ (env : Env) (cfg : PullConfig) (a b c : String) (rest : List String),
        pull_main env cfg ("tar" :: a :: b :: c :: rest) = -EINVAL) ∧
    (∀ (env : Env) (cfg : PullConfig), pull_main env cfg ["raw"] = -EINVAL) ∧
    (∀ (env : Env) (cfg : PullConfig) (a b c : String) (rest : List String),
        pull_main env cfg ("raw" :: a :: b :: c :: rest) = -EINVAL) ∧
    (∀ (env : Env) (cfg : PullConfig) (url : String),
        pull_main env cfg ["tar", url] = pull_tar env cfg url none) ∧
    (∀ (env : Env) (cfg : PullConfig) (url name : String),
        pull_main env cfg ["tar", url, name] = pull_tar env cfg url (some name)) ∧
    (∀ (env : Env) (cfg : PullConfig) (url : String),
        pull_main env cfg ["raw", url] = pull_raw env cfg url none) ∧
    (∀ (env : Env) (cfg : PullConfig) (url name : String),
        pull_main env cfg ["raw", url, name] = pull_raw env cfg url (some name)) := by
  refine ⟨fun env cfg rest => rfl, fun env cfg => rfl, ?_,
          fun env cfg => rfl, fun env cfg a b c rest => rfl,
          fun env cfg => rfl, fun env cfg a b c rest => rfl,
          fun env cfg url => rfl, fun env cfg url name => rfl,
          fun env cfg url => rfl, fun env cfg url name => rfl⟩
  intro env cfg verb rest hh ht hr
  simp [pull_main, hh, ht, hr]

/-- C8 witness: an unrecognized verb at a concrete environment fails with
`-EINVAL`. -/
theorem verb_dispatch_contract_witness :
    pull_main
      { store := fun _ => 0, sd_event_default_r := 0, pull_new_r := 0,
        pull_start_r := 0, outcome := LoopOutcome.interrupted }
      default_config ["bogus"] = -EINVAL :=
  verb_dispatch_contract.2.2.1 _ default_config "bogus" []
    (by decide) (by decide) (by decide)

/-- C10 witness: `--settings=no --force` resolves with `FORCE` set. -/
theorem force_monotone_witness :
    ({ image_root := "/var/lib/machines",
       verify := ImportVerify.IMPORT_VERIFY_SIGNATURE,
       pull_flags := { force := true, settings := false, roothash := true,
                       roothash_signature := true, verity := true } } :
      PullConfig).pull_flags.force = true :=
  force_monotone [Arg.settings "no", Arg.force] default_config _
    (by decide) (by decide)

end Pull
